import Mathlib

/-!
# Verification model of the `timeout` utility (src/timeout/timeout.cpp)

A shallow embedding of the POSIX (non-`_WIN32`) branch of the program.

## Numeric values

The C++ parses durations into a `double`.  The model represents the parsed
value exactly, as a fraction `num / 10 ^ denExp` (`Dbl` below); this is
faithful to the C++ for every input whose value is exactly representable in
binary64 (all inputs considered below are) and abstracts from
round-to-nearest at non-representable inputs.  `Dbl.toRat` gives the rational
value a `Dbl` denotes; arithmetic and comparisons are done on numerators and
denominators so that everything evaluates in the kernel.

## Parsing

* `stodChars` models `std::stod` (C `strtod`, decimal forms): longest-prefix
  parse of `[ws]* [+-]? (digits [. digits*] | . digits) [(e|E) [+-]? digits]`,
  returning the parsed value and the unconsumed suffix, or `none` when the
  call throws (`std::invalid_argument` when no digits are found,
  `std::out_of_range` when the magnitude exceeds the `double` range).
  Hexadecimal, `inf` and `nan` forms are omitted.
* `stoiChars` models `std::stoi` called under `try { ... } catch (...)`:
  `none` stands for either exception (no digits, or out of `int` range).
* `parse_duration` models `Timeout::parse_duration`; since neither it nor any
  of its callers installs a handler, a throwing `std::stod` aborts the whole
  process, which the model records as the distinguished outcome
  `DurationResult.exn` (as opposed to `.invalid`, i.e. `return false`).
* `parse_signal` models `Timeout::parse_signal` (signal numbers are Linux
  numbering, the platform the claims are evaluated on).
-/

namespace TimeoutModel

/-- Exact value of the C++ `double` expressions arising in `parse_duration`:
the fraction `num / 10 ^ denExp`.  The denominator is kept as a power of ten
(it is always one in this program), so it is positive by construction. -/
structure Dbl where
  num : ℤ
  denExp : Nat
deriving DecidableEq

/-- The rational value a `Dbl` denotes. -/
def Dbl.toRat (a : Dbl) : ℚ := (a.num : ℚ) / ((10 ^ a.denExp : Nat) : ℚ)

/-- A `double` holding an integer. -/
def Dbl.ofInt (n : ℤ) : Dbl := ⟨n, 0⟩

/-- `<` on the denoted values, by cross-multiplication (denominators are
positive powers of ten). -/
def Dbl.blt (a b : Dbl) : Bool :=
  decide (a.num * (10 ^ b.denExp : Nat) < b.num * (10 ^ a.denExp : Nat))

/-- Multiplication by an integer constant (the unit factors 60/3600/86400). -/
def Dbl.scale (a : Dbl) (k : ℤ) : Dbl := ⟨a.num * k, a.denExp⟩

/-- Negation (the leading `-` sign). -/
def Dbl.neg (a : Dbl) : Dbl := ⟨-a.num, a.denExp⟩

/-- `⌊value⌋` (`/` on `ℤ` rounds toward minus infinity for the positive
denominators used here; `static_cast<int>` truncates toward zero, and the two
agree on the nonnegative values the program feeds it). -/
def Dbl.floorInt (a : Dbl) : ℤ := a.num / ((10 ^ a.denExp : Nat) : ℤ)

/-- C `isdigit` for the characters fed to `strtod`/`strtol`. -/
def isDigitChar (c : Char) : Bool := '0' ≤ c && c ≤ '9'

/-- C `isspace` in the default locale: space, \t, \n, \v, \f, \r. -/
def isSpaceChar (c : Char) : Bool :=
  c = ' ' || c = '\t' || c = '\n' || c = '\x0b' || c = '\x0c' || c = '\r'

/-- Numeric value of a decimal digit character. -/
def digitVal (c : Char) : Nat := c.toNat - 48

/-- Value of a string of decimal digits, most significant first. -/
def natOfDigits : List Char → Nat → Nat
  | [], acc => acc
  | c :: cs, acc => natOfDigits cs (acc * 10 + digitVal c)

/-- An optional leading sign: `true` means negative; returns the rest. -/
def readSign : List Char → Bool × List Char
  | '+' :: r => (false, r)
  | '-' :: r => (true, r)
  | l => (false, l)

/-- An optional exponent part `(e|E) [+-]? digits`; if no digit follows the
`e`/`E` (and optional sign) nothing is consumed, as in `strtod`.
Returns (negative?, magnitude, rest). -/
def readExp (l : List Char) : Bool × Nat × List Char :=
  match l with
  | c :: rest =>
    if c = 'e' || c = 'E' then
      let sr := readSign rest
      let ds := sr.2.takeWhile isDigitChar
      if ds.isEmpty then (false, 0, l)
      else (sr.1, natOfDigits ds 0, sr.2.dropWhile isDigitChar)
    else (false, 0, l)
  | [] => (false, 0, [])

/-- Largest finite `double`, (2^53 - 1) * 2^971, written out as a numeral so
that kernel evaluation of the comparison below stays cheap. -/
def dblMax : Dbl :=
  Dbl.ofInt 179769313486231570814527423731704356798070567525844996598917476803157260780028538760589558632766878171540458953514382464234321326889464182768467546703537516986049910576551282076245490090389328944075868508455133942304583236903222948165808559332123348274797826204144723168738177180919299881250404026184124858368

/-- `std::stod` on a character list (see the header comment): parsed value
and unconsumed rest, `none` when the C++ call throws. -/
def stodChars (l : List Char) : Option (Dbl × List Char) :=
  let l1 := l.dropWhile isSpaceChar
  let sg := readSign l1
  let intD := sg.2.takeWhile isDigitChar
  let l3 := sg.2.dropWhile isDigitChar
  let fr : List Char × List Char :=
    match l3 with
    | '.' :: rest => (rest.takeWhile isDigitChar, rest.dropWhile isDigitChar)
    | _ => ([], l3)
  if intD.isEmpty && fr.1.isEmpty then none
  else
    let mant : Dbl :=
      ⟨(natOfDigits intD 0 * 10 ^ fr.1.length + natOfDigits fr.1 0 : Nat), fr.1.length⟩
    let ex := readExp fr.2
    let mag : Dbl :=
      if ex.1 then ⟨mant.num, mant.denExp + ex.2.1⟩
      else ⟨mant.num * (10 ^ ex.2.1 : Nat), mant.denExp⟩
    if dblMax.blt mag then none
    else some (if sg.1 then mag.neg else mag, ex.2.2)

/-- `std::stoi` under `catch (...)`: `none` when no digits are found or the
value exceeds the `int` range (both exceptions are swallowed by the caller). -/
def stoiChars (l : List Char) : Option ℤ :=
  let l1 := l.dropWhile isSpaceChar
  let sg := readSign l1
  let ds := sg.2.takeWhile isDigitChar
  if ds.isEmpty then none
  else
    let v : ℤ := if sg.1 then -(natOfDigits ds 0 : ℤ) else (natOfDigits ds 0 : ℤ)
    if v < -2147483648 || 2147483647 < v then none else some v

/-- `INT_MAX` on the target platform. -/
def INT_MAX : ℤ := 2147483647

/-- The value computed by `parse_duration` before its range check: the `stod`
result scaled by the unit suffix (the code inspects only the single character
at `pos`, characters after it are ignored). `noParse` = `std::stod` threw,
`badUnit` = the `default:` branch of the `switch` (`return false`). -/
inductive DurVal where
  | val (v : Dbl)
  | badUnit
  | noParse
deriving DecidableEq

/-- The suffix-scaling part of `Timeout::parse_duration` (lines 53-65). -/
def durationValueChars (l : List Char) : DurVal :=
  match stodChars l with
  | none => .noParse
  | some (v, rest) =>
    match rest with
    | [] => .val v
    | u :: _ =>
      if u = 's' then .val v
      else if u = 'm' then .val (v.scale 60)
      else if u = 'h' then .val (v.scale 3600)
      else if u = 'd' then .val (v.scale 86400)
      else .badUnit

/-- Outcome of `Timeout::parse_duration`: `ok n` = `return true` with
`duration_seconds = n`; `invalid` = `return false`; `exn` = `std::stod`
threw and, no caller having a handler, the process aborts. -/
inductive DurationResult where
  | ok (seconds : Nat)
  | invalid
  | exn
deriving DecidableEq

/-- `Timeout::parse_duration` (timeout.cpp lines 50-70) on a character list.
After the `value < 0` check, `static_cast<int>(value)` is the floor. -/
def parseDurationChars (l : List Char) : DurationResult :=
  if l.isEmpty then .invalid
  else
    match durationValueChars l with
    | .noParse => .exn
    | .badUnit => .invalid
    | .val v =>
      if v.blt (Dbl.ofInt 0) || (Dbl.ofInt INT_MAX).blt v then .invalid
      else .ok v.floorInt.toNat

/-- `Timeout::parse_duration` on a string. -/
def parse_duration (s : String) : DurationResult := parseDurationChars s.data

/-- Signal numbers (Linux). -/
def SIGHUP : ℤ := 1
def SIGINT : ℤ := 2
def SIGKILL : ℤ := 9
def SIGUSR1 : ℤ := 10
def SIGUSR2 : ℤ := 12
def SIGTERM : ℤ := 15

/-- `Timeout::parse_signal` (timeout.cpp lines 72-88): `stoi` first; on
exception, the symbolic-name chain; anything else falls through to
`SIGTERM`. -/
def parse_signal (s : String) : ℤ :=
  if s.data.isEmpty then SIGTERM
  else
    match stoiChars s.data with
    | some n => n
    | none =>
      if s = "TERM" || s = "SIGTERM" then SIGTERM
      else if s = "INT" || s = "SIGINT" then SIGINT
      else if s = "HUP" || s = "SIGHUP" then SIGHUP
      else if s = "KILL" || s = "SIGKILL" then SIGKILL
      else if s = "USR1" || s = "SIGUSR1" then SIGUSR1
      else if s = "USR2" || s = "SIGUSR2" then SIGUSR2
      else SIGTERM

/-!
## The process supervisor (`Timeout::run` and its POSIX helpers)

The supervised child process is part of the environment, not of the program;
it is modelled by `Child`: an optional instant (in milliseconds from spawn)
at which it exits of its own accord together with its exit status, and its
reaction to each signal (`none` = the signal is ignored/trapped with no exit;
`some (d, st)` = it exits `d` ms after receiving the signal, with status
`st`).  During a run the child's next exit is tracked as a "schedule"
`Option (Nat × Nat)` — `(absolute time in ms, native exit status)`, `none`
meaning it never exits.

`wait_for_process` models the polling loop of `Timeout::wait_for_process`
(lines 261-288): every 100 ms it first checks `waitpid(WNOHANG)` and then
whether `elapsed >= timeout_seconds`; so it returns `true` exactly when the
child's exit time is at most `now + 1000*t` ms, at the first 100 ms poll not
earlier than the exit, and otherwise returns `false` at `now + 1000*t`.
(The `child_pid == -1` and `waitpid == -1` error branches are unreachable in
the call pattern of `run` and are not modelled.)

`run` models `Timeout::run` (lines 310-341).  Its observable outcome
(`RunResult`) is the returned exit code, the list of termination actions
performed (`kill()` calls), the list of diagnostic lines written to stderr
(`terminate_process` and `kill_process` each write exactly one line when
`verbose`), the time at which `run` returns, and the child's final exit
schedule.  `Spawn.forkFail` is `fork() == -1` (`start_process` returns
`false`); an `execvp` failure is not a spawn failure in this program — the
forked child prints an error and exits with status 127 (`execFailChild`). -/

/-- Behaviour of the supervised child process (environment model). -/
structure Child where
  selfExit : Option Nat
  selfStatus : Nat
  react : ℤ → Option (Nat × Nat)

/-- The configuration `Timeout::run` reads: `duration_seconds`,
`kill_after_seconds` (0 = no `-k` option, as in the C++ where the member
defaults to 0 and is tested with `> 0`), `signal_name` (the raw `-s`
argument string; `terminate_process` re-parses it), `preserve_status`,
`verbose`. -/
structure Config where
  duration : Nat
  killAfter : Nat
  signalName : String
  preserveStatus : Bool
  verbose : Bool

/-- Outcome of `fork()` in `start_process`. -/
inductive Spawn where
  | forkFail
  | runs (c : Child)

/-- A termination action performed by the supervisor: the initial
(configurable) signal sent by `terminate_process`, or the `SIGKILL` sent by
`kill_process`. -/
inductive Action where
  | initialSignal (s : ℤ)
  | sigkill
deriving DecidableEq

/-- The child's initial exit schedule: its voluntary exit, if any. -/
def initSched (c : Child) : Option (Nat × Nat) :=
  c.selfExit.map (fun e => (e, c.selfStatus))

/-- Earlier of two scheduled exits (a process exits only once; whichever
event comes first wins; on a tie the two events are indistinguishable to the
supervisor and the first argument is kept). -/
def minSched : Option (Nat × Nat) → Option (Nat × Nat) → Option (Nat × Nat)
  | none, o => o
  | some p, none => some p
  | some p, some q => if q.1 < p.1 then some q else some p

/-- New exit schedule after signal `s` is delivered to the child at time
`now`. -/
def applySignal (c : Child) (sched : Option (Nat × Nat)) (s : ℤ) (now : Nat) :
    Option (Nat × Nat) :=
  minSched sched ((c.react s).map (fun p => (now + p.1, p.2)))

/-- First 100 ms poll at or after `e`, starting from `now`. -/
def pollTime (now e : Nat) : Nat := now + 100 * ((e - now + 99) / 100)

/-- `Timeout::wait_for_process` (lines 261-288): given the child's current
exit schedule, the current time and `timeout_seconds`, returns (completed?,
time at return). -/
def wait_for_process (sched : Option (Nat × Nat)) (now t : Nat) : Bool × Nat :=
  match sched with
  | none => (false, now + 1000 * t)
  | some (e, _) =>
    if e ≤ now + 1000 * t then (true, pollTime now e) else (false, now + 1000 * t)

/-- Everything observable about one call of `Timeout::run`. -/
structure RunResult where
  code : Nat
  actions : List Action
  diags : List Action
  endTime : Nat
  sched : Option (Nat × Nat)
deriving DecidableEq

/-- `Timeout::run` (timeout.cpp lines 310-341). -/
def run (cfg : Config) (sp : Spawn) : RunResult :=
  match sp with
  | .forkFail => ⟨125, [], [], 0, none⟩
  | .runs c =>
    let st0 := initSched c
    let w1 := wait_for_process st0 0 cfg.duration
    if w1.1 then
      ⟨0, [], [], w1.2, st0⟩
    else
      let sig := parse_signal cfg.signalName
      let acts1 : List Action := [Action.initialSignal sig]
      let diags1 : List Action := if cfg.verbose then acts1 else []
      let st1 := applySignal c st0 sig w1.2
      if 0 < cfg.killAfter then
        let w2 := wait_for_process st1 w1.2 cfg.killAfter
        if w2.1 then
          ⟨if cfg.preserveStatus then 0 else 124, acts1, diags1, w2.2, st1⟩
        else
          let st2 := applySignal c st1 SIGKILL w2.2
          ⟨137, acts1 ++ [Action.sigkill],
            diags1 ++ (if cfg.verbose then [Action.sigkill] else []),
            w2.2 + 100, st2⟩
      else
        ⟨if cfg.preserveStatus then 0 else 124, acts1, diags1, w1.2, st1⟩

/-- A child whose `execvp` failed (executable not found, or found but not
invokable): it prints an error and exits with status 127 a few milliseconds
after the fork, whatever the reason for the failure. -/
def execFailChild (delay : Nat) : Child :=
  ⟨some delay, 127, fun s => some (0, (128 + s).toNat)⟩

/-- A child that ignores (or harmlessly traps) every signal and never exits
on its own. -/
def stubbornChild : Child := ⟨none, 0, fun _ => none⟩

/-- Following the spec's words (SIGNAL grammar), for stating claim C8: a
"decimal integer" — an optional sign followed by one or more decimal digits
and nothing else. -/
def specDecimalIntString (s : String) : Bool :=
  !(readSign s.data).2.isEmpty && (readSign s.data).2.all isDigitChar

/-- Following the spec's words, for stating claim C8: the recognized
symbolic names the spec lists — the six bare forms `TERM, INT, HUP, KILL,
USR1, USR2`. -/
def specClaimNames : List String :=
  ["TERM", "INT", "HUP", "KILL", "USR1", "USR2"]

/-- The symbolic signal names the code's if-chain recognizes: the six bare
forms and their `SIG`-prefixed spellings. -/
def recognizedSignalNames : List String :=
  ["TERM", "SIGTERM", "INT", "SIGINT", "HUP", "SIGHUP",
   "KILL", "SIGKILL", "USR1", "SIGUSR1", "USR2", "SIGUSR2"]

/-!
## Helper lemmas
-/

/-- A failed wait returns at exactly `now + 1000 * t` ms (the polling loop
gives up once `elapsed >= timeout_seconds`). -/
theorem wait_false_time (sched : Option (Nat × Nat)) (now t : Nat)
    (h : (wait_for_process sched now t).1 = false) :
    (wait_for_process sched now t).2 = now + 1000 * t := by
  cases sched with
  | none => rfl
  | some p =>
    obtain ⟨e, st⟩ := p
    by_cases he : e ≤ now + 1000 * t
    · simp [wait_for_process, he] at h
    · simp [wait_for_process, he]

/-- `Dbl.blt` decides strict order on the denoted values. -/
theorem Dbl.blt_iff (a b : Dbl) : a.blt b = true ↔ a.toRat < b.toRat := by
  unfold Dbl.blt Dbl.toRat
  rw [decide_eq_true_eq, div_lt_div_iff₀ (by positivity) (by positivity)]
  push_cast
  constructor
  · intro h
    exact_mod_cast h
  · intro h
    exact_mod_cast h

/-- `Dbl.blt` returning `false` means the denoted values satisfy `≥`. -/
theorem Dbl.blt_eq_false (a b : Dbl) : a.blt b = false ↔ b.toRat ≤ a.toRat := by
  rw [← Bool.not_eq_true, Dbl.blt_iff a b, not_lt]

/-- The model's floor agrees with the mathematical floor of the denoted
value. -/
theorem Dbl.floorInt_eq (a : Dbl) : a.floorInt = ⌊a.toRat⌋ :=
  (Rat.floor_intCast_div_natCast a.num (10 ^ a.denExp)).symm

/-- The value denoted by an integral `Dbl`. -/
theorem Dbl.ofInt_toRat (n : ℤ) : (Dbl.ofInt n).toRat = (n : ℚ) := by
  simp [Dbl.ofInt, Dbl.toRat]

/-!
## The claims
-/

/-- Claim C1: the spec says that a command exiting on its own with code C
before the deadline makes `Timeout::run` return C.  The code instead returns
the literal 0 whenever `wait_for_process` reports completion, never reading
the child's status: a child that exits with status 7 at 500 ms, well inside
a 5-second deadline, yields exit code 0, not 7. -/
theorem run_discards_child_exit_status :
    (run ⟨5, 0, "TERM", false, false⟩ (.runs ⟨some 500, 7, fun _ => none⟩)).code = 0 ∧
    (run ⟨5, 0, "TERM", false, false⟩ (.runs ⟨some 500, 7, fun _ => none⟩)).sched =
      some (500, 7) ∧
    (run ⟨5, 0, "TERM", false, false⟩ (.runs ⟨some 500, 7, fun _ => none⟩)).code ≠ 7 := by
  decide

/-- Claim C2: the spec says that when the child exits during the grace
window and `preserveStatus` is true, `Timeout::run` returns the child's own
translated status.  The code executes `return preserve_status ? 0 : 124;`: a
child that traps SIGTERM and exits with status 7 at 500 ms into a 5-second
grace window yields exit code 0, not 7 (the `preserveStatus = false` half,
returning 124, does hold). -/
theorem run_preserve_status_returns_zero :
    (run ⟨1, 5, "TERM", true, false⟩
        (.runs ⟨none, 0, fun s => if s = 15 then some (500, 7) else none⟩)).code = 0 ∧
    (run ⟨1, 5, "TERM", true, false⟩
        (.runs ⟨none, 0, fun s => if s = 15 then some (500, 7) else none⟩)).sched =
      some (1500, 7) ∧
    (run ⟨1, 5, "TERM", false, false⟩
        (.runs ⟨none, 0, fun s => if s = 15 then some (500, 7) else none⟩)).code = 124 := by
  decide

/-- Claim C3: the spec says that with no `killAfter` the supervisor waits
unboundedly after the initial signal and never returns while the child
lives.  The code instead returns immediately after `terminate_process()`: a
child that ignores SIGTERM and never exits (final schedule `none`) still
gets exit code 124 delivered at exactly 1000 ms — the end of the 1-second
deadline — with no post-signal wait at all. -/
theorem run_no_killafter_returns_immediately :
    run ⟨1, 0, "TERM", false, false⟩ (.runs stubbornChild) =
      ⟨124, [.initialSignal 15], [], 1000, none⟩ := by
  decide

/-- Claim C4: the spec says `duration == 0` means "no timeout — run to
completion" and the child's status is passed through.  The code treats 0 as
a zero-length deadline: the very first poll already satisfies
`elapsed >= 0`, so a child that would exit at 500 ms with status 7 is
signalled at time 0 and the call returns 124 — the timeout path, not the
no-timeout path. -/
theorem run_zero_duration_times_out :
    run ⟨0, 0, "TERM", false, false⟩ (.runs ⟨some 500, 7, fun _ => none⟩) =
      ⟨124, [.initialSignal 15], [], 0, some (500, 7)⟩ := by
  decide

/-- Claim C5: the spec says spawn failures map to 127 (not found), 126
(found but not invokable) and 125 (other).  In the code `execvp` failure is
not a spawn failure at all: the forked child exits with status 127 whatever
the reason, `wait_for_process` reports normal completion, and `run` returns
0 — for a nonexistent executable and for a permission-denied one alike; only
`fork` failure produces 125. -/
theorem run_spawn_failure_codes :
    (run ⟨5, 0, "TERM", false, false⟩ (.runs (execFailChild 1))).code = 0 ∧
    (run ⟨5, 0, "TERM", false, false⟩ .forkFail).code = 125 := by
  decide

/-- Claim C6 (confirmed): if `killAfter` is configured, the deadline elapses
(first wait fails) and the child is still alive at the end of the grace
window (second wait fails), then `run` sends the initial signal and SIGKILL,
returns 137 regardless of `preserveStatus`, and terminates at exactly
`1000*duration + 1000*killAfter + 100` ms — a bound, not a hang. -/
theorem run_escalation_returns_137 (cfg : Config) (c : Child)
    (hk : 0 < cfg.killAfter)
    (h1 : (wait_for_process (initSched c) 0 cfg.duration).1 = false)
    (h2 : (wait_for_process
            (applySignal c (initSched c) (parse_signal cfg.signalName)
              (wait_for_process (initSched c) 0 cfg.duration).2)
            (wait_for_process (initSched c) 0 cfg.duration).2 cfg.killAfter).1 = false) :
    (run cfg (.runs c)).code = 137 ∧
    (run cfg (.runs c)).actions =
      [Action.initialSignal (parse_signal cfg.signalName), Action.sigkill] ∧
    (run cfg (.runs c)).endTime = 1000 * cfg.duration + 1000 * cfg.killAfter + 100 := by
  have e1 := wait_false_time _ _ _ h1
  have e2 := wait_false_time _ _ _ h2
  refine ⟨?_, ?_, ?_⟩ <;>
    simp only [run, h1, Bool.false_eq_true, if_false, hk, if_pos, h2,
      List.singleton_append]
  rw [e2, e1]
  omega

/-- Witness for C6 at a concrete input: duration 1 s, killAfter 1 s,
`preserveStatus` true, a child that ignores every signal. -/
theorem run_escalation_returns_137_witness :
    (run ⟨1, 1, "TERM", true, false⟩ (.runs stubbornChild)).code = 137 ∧
    (run ⟨1, 1, "TERM", true, false⟩ (.runs stubbornChild)).actions =
      [Action.initialSignal (parse_signal "TERM"), Action.sigkill] ∧
    (run ⟨1, 1, "TERM", true, false⟩ (.runs stubbornChild)).endTime =
      1000 * 1 + 1000 * 1 + 100 :=
  run_escalation_returns_137 ⟨1, 1, "TERM", true, false⟩ stubbornChild
    (by decide) (by decide) (by decide)

/-- Claim C7: the spec's duration-parsing round trip.  The three positive
cases hold, and `-1s` is rejected; but `bogus` is not "reported as a parse
error": `std::stod` throws `std::invalid_argument`, no caller catches it,
and the process aborts (`DurationResult.exn`), instead of `parse_duration`
returning `false`. -/
theorem parse_duration_round_trip :
    parse_duration "2m" = .ok 120 ∧
    parse_duration "1.5h" = .ok 5400 ∧
    parse_duration "3d" = .ok 259200 ∧
    parse_duration "-1s" = .invalid ∧
    parse_duration "bogus" = .exn := by
  decide

/-- Counterexamples to claim C8 as stated, one per clause the code
violates: `"9abc"` is neither a decimal-integer string nor one of the
claim's six names, so the claimed fallback requires SIGTERM (15), but
`std::stoi` parses the longest digit prefix and `parse_signal` returns 9;
`"99999999999"` is a decimal-integer string, but being out of `int` range
it yields the fallback SIGTERM instead of that number; `"SIGKILL"` is not
a decimal-integer string and not one of the claim's six names either, yet
it returns SIGKILL (9), not the claimed SIGTERM fallback. -/
theorem parse_signal_prefix_counterexample :
    (specDecimalIntString "9abc" = false ∧ "9abc" ∉ specClaimNames ∧
      parse_signal "9abc" = 9 ∧ parse_signal "9abc" ≠ SIGTERM) ∧
    (specDecimalIntString "99999999999" = true ∧
      parse_signal "99999999999" = SIGTERM ∧
      parse_signal "99999999999" ≠ 99999999999) ∧
    (specDecimalIntString "SIGKILL" = false ∧ "SIGKILL" ∉ specClaimNames ∧
      parse_signal "SIGKILL" = SIGKILL ∧ parse_signal "SIGKILL" ≠ SIGTERM) := by
  decide

/-- Claim C8 amended: `parse_signal` returns the value of the longest
leading decimal integer (after optional whitespace and sign) whenever there
is one and it fits in `int` — so an in-range decimal-integer string maps to
that signal number and `"9abc"` maps to 9; it maps each of the names TERM,
INT, HUP, KILL, USR1, USR2 and their SIG-prefixed spellings to the
corresponding signal; and any text with no such in-range integer prefix
that is none of those twelve names — including out-of-range integer strings
such as `"99999999999"` — maps to the default termination signal (SIGTERM)
rather than failing. -/
theorem parse_signal_amended (s : String) :
    (∀ n, stoiChars s.data = some n → parse_signal s = n) ∧
    (parse_signal "TERM" = SIGTERM ∧ parse_signal "SIGTERM" = SIGTERM ∧
     parse_signal "INT" = SIGINT ∧ parse_signal "SIGINT" = SIGINT ∧
     parse_signal "HUP" = SIGHUP ∧ parse_signal "SIGHUP" = SIGHUP ∧
     parse_signal "KILL" = SIGKILL ∧ parse_signal "SIGKILL" = SIGKILL ∧
     parse_signal "USR1" = SIGUSR1 ∧ parse_signal "SIGUSR1" = SIGUSR1 ∧
     parse_signal "USR2" = SIGUSR2 ∧ parse_signal "SIGUSR2" = SIGUSR2) ∧
    (stoiChars s.data = none → s ∉ recognizedSignalNames →
      parse_signal s = SIGTERM) := by
  refine ⟨?_, by decide, ?_⟩
  · intro n h
    cases hd : s.data with
    | nil => rw [hd] at h; cases h
    | cons a l =>
      rw [hd] at h
      simp [parse_signal, hd, h]
  · intro h hn
    simp only [recognizedSignalNames, List.mem_cons, List.not_mem_nil, or_false,
      not_or] at hn
    obtain ⟨n1, n2, n3, n4, n5, n6, n7, n8, n9, n10, n11, n12⟩ := hn
    by_cases hd : s.data.isEmpty
    · simp [parse_signal, hd]
    · simp [parse_signal, hd, h, n1, n2, n3, n4, n5, n6, n7, n8, n9, n10, n11, n12]

/-- Witness for C8's amended claim at concrete inputs: a digit-prefixed
string, an out-of-range integer string, and an unrecognized name. -/
theorem parse_signal_amended_witness :
    parse_signal "9abc" = 9 ∧ parse_signal "99999999999" = SIGTERM ∧
    parse_signal "NONSENSE" = SIGTERM :=
  ⟨(parse_signal_amended "9abc").1 9 (by decide),
   (parse_signal_amended "99999999999").2.2 (by decide) (by decide),
   (parse_signal_amended "NONSENSE").2.2 (by decide) (by decide)⟩

/-- Claim C9 (confirmed): across every path of `run`, the diagnostic lines
written to stderr are exactly one per termination action performed when
`verbose` is true, and there are none when `verbose` is false. -/
theorem run_verbose_diagnostics (cfg : Config) (sp : Spawn) :
    (run cfg sp).diags = (if cfg.verbose then (run cfg sp).actions else []) := by
  cases sp with
  | forkFail => cases cfg.verbose <;> simp [run]
  | runs c =>
    cases hv : cfg.verbose <;>
      simp only [run, hv, Bool.false_eq_true, if_false, if_true] <;>
      (repeat' split) <;>
      rfl

/-- Claim C10 (confirmed): `parse_duration` truncates the (suffix-scaled)
parsed value to a whole number of seconds — any in-range nonnegative value
`v` yields `⌊v⌋`, so `"1.5"` yields 1 and `"0.5s"` yields 0 — and any value
greater than `INT_MAX` is rejected (`return false`). -/
theorem parse_duration_truncates :
    (∀ (s : String) (v : Dbl), durationValueChars s.data = .val v →
        0 ≤ v.toRat → v.toRat ≤ (2147483647 : ℚ) →
        parse_duration s = .ok (⌊v.toRat⌋).toNat) ∧
    (∀ (s : String) (v : Dbl), durationValueChars s.data = .val v →
        (2147483647 : ℚ) < v.toRat → parse_duration s = .invalid) ∧
    parse_duration "1.5" = .ok 1 ∧
    parse_duration "0.5s" = .ok 0 := by
  refine ⟨?_, ?_, by decide, by decide⟩
  · intro s v hval h0 hle
    have hb1 : v.blt (Dbl.ofInt 0) = false := by
      rw [Dbl.blt_eq_false, Dbl.ofInt_toRat]
      exact_mod_cast h0
    have hb2 : (Dbl.ofInt INT_MAX).blt v = false := by
      rw [Dbl.blt_eq_false, Dbl.ofInt_toRat]
      exact_mod_cast hle
    cases hd : s.data with
    | nil => rw [hd] at hval; cases hval
    | cons a l =>
      rw [hd] at hval
      simp [parse_duration, parseDurationChars, hd, hval, hb1, hb2, Dbl.floorInt_eq]
  · intro s v hval hgt
    have hb2 : (Dbl.ofInt INT_MAX).blt v = true := by
      rw [Dbl.blt_iff, Dbl.ofInt_toRat]
      exact_mod_cast hgt
    cases hd : s.data with
    | nil => rw [hd] at hval; cases hval
    | cons a l =>
      rw [hd] at hval
      simp [parse_duration, parseDurationChars, hd, hval, hb2]

/-- Witness for C10 at concrete inputs: `"2.75"` (value 275/100, truncated
to 2) and `"1e10"` (value 10^10 > INT_MAX, rejected). -/
theorem parse_duration_truncates_witness :
    parse_duration "2.75" = .ok (⌊Dbl.toRat ⟨275, 2⟩⌋).toNat ∧
    parse_duration "1e10" = .invalid :=
  ⟨parse_duration_truncates.1 "2.75" ⟨275, 2⟩ (by decide)
      (by norm_num [Dbl.toRat]) (by norm_num [Dbl.toRat]),
   parse_duration_truncates.2.1 "1e10" ⟨10000000000, 0⟩ (by decide)
      (by norm_num [Dbl.toRat])⟩

end TimeoutModel
